import Mathlib

/-!
Verification of the certificate-watch program `crtwtch.go`.

The program performs one sweep: for each configured group it probes every
site's TLS certificate, computes the days left until expiry, collects alert
lines for unreachable / expired / expiring-soon sites, and sends exactly one
wxwork notification per group.

Time is modelled in integer nanoseconds, matching Go's `time.Duration`
(an int64 count of nanoseconds).  `Duration.Hours()` divides nanoseconds by
`time.Hour` (3.6e12 ns); the subsequent `int(... / 24)` conversion truncates
toward zero, which over the integers is `Int.tdiv` by the nanoseconds in a
day.  Network effects (TLS dial outcomes, HTTP transport responses) are
passed in as explicit function arguments so that the pure decision logic of
the source is embedded exactly.
-/

namespace Crtwtch

/-- Nanoseconds in one hour, Go's `time.Hour`. -/
def nsPerHour : Int := 3600000000000

/-- Nanoseconds in one day (24 hours). -/
def nsPerDay : Int := 24 * nsPerHour

/-- Line 115 of `crtwtch.go`: `daysLeft := int(expire.Sub(today).Hours() / 24)`.
`expire.Sub(today)` is the signed nanosecond difference; `.Hours()` divides by
3.6e12 and `/ 24` divides again; the `int(...)` cast truncates toward zero.
The exact value is therefore the truncated (T-) division of the nanosecond
difference by the nanoseconds in a day. -/
def daysLeft (expireNs nowNs : Int) : Int :=
  Int.tdiv (expireNs - nowNs) nsPerDay

/-- `WatchGroup` from `crtwtch.go`: one configured group. -/
structure WatchGroup where
  name : String
  wxworkToken : String
  interval : Int
  dayBeforeExpiration : Int
  sites : List String
deriving Repr, DecidableEq

/-- Outcome of `GetExpirationDate(site)` as seen by the evaluation loop in
`main`: either an error, or the certificate expiry instant in nanoseconds. -/
inductive ProbeResult
  | failure (err : String)
  | success (expireNs : Int)
deriving Repr, DecidableEq

/-- Severity of a notification, Go's `slog.LevelInfo` / `slog.LevelWarn`
as passed to `SendWxwork`. -/
inductive Level
  | info
  | warn
deriving Repr, DecidableEq

/-- The classification of a probed site derived from the branch structure of
lines 109-121 of `crtwtch.go` for a successful probe: expiring soon when
`daysLeft <= redline && daysLeft >= 0`, expired when `daysLeft < 0`,
healthy otherwise.  `Unreachable` is the probe-failure case. -/
inductive Classification
  | Healthy
  | ExpiringSoon (d : Int)
  | Expired (d : Int)
  | Unreachable
deriving Repr, DecidableEq

/-- Classification of a computed `daysLeft` value `d` against the group
redline, mirroring the `if` chain at lines 117-121. -/
def classify (redline d : Int) : Classification :=
  if d ≤ redline ∧ 0 ≤ d then .ExpiringSoon d
  else if d < 0 then .Expired d
  else .Healthy

/-- Classification of one site, including the probe-failure branch at
lines 110-114. -/
def classifySite (redline nowNs : Int) (probe : String → ProbeResult)
    (site : String) : Classification :=
  match probe site with
  | .failure _ => .Unreachable
  | .success e => classify redline (daysLeft e nowNs)

/-- Line 112: the alert appended when the probe fails. -/
def checkFailedLine (site : String) : String :=
  "❗ 检测失败: " ++ site

/-- Line 118: the alert appended when the certificate expires soon.
`dateStr` stands for `expire.Format("2006-01-02")`. -/
def expiringSoonLine (site : String) (d : Int) (dateStr : String) : String :=
  "⚠️ 证书即将过期: " ++ site ++ " 还有 " ++ toString d ++ " 天 (到期日: " ++ dateStr ++ ")"

/-- Line 120: the alert appended when the certificate has expired. -/
def expiredLine (site : String) (dateStr : String) : String :=
  "❗ 证书已过期: " ++ site ++ " (到期日: " ++ dateStr ++ ")"

/-- One iteration of the inner loop at lines 107-122: the alert line (if any)
produced for `site`.  `fmtDate` abstracts Go's `Format("2006-01-02")` applied
to the expiry instant. -/
def siteAlert (redline nowNs : Int) (fmtDate : Int → String)
    (probe : String → ProbeResult) (site : String) : Option String :=
  match probe site with
  | .failure _ => some (checkFailedLine site)
  | .success e =>
      let d := daysLeft e nowNs
      if d ≤ redline ∧ 0 ≤ d then some (expiringSoonLine site d (fmtDate e))
      else if d < 0 then some (expiredLine site (fmtDate e))
      else none

/-- The `alerts` slice built by the loop at lines 106-122: the alert lines of
the group's sites, appended in site-list order. -/
def groupAlerts (g : WatchGroup) (nowNs : Int) (fmtDate : Int → String)
    (probe : String → ProbeResult) : List String :=
  g.sites.filterMap (siteAlert g.dayBeforeExpiration nowNs fmtDate probe)

/-- Line 125: the all-clear message. -/
def allClearText (dateStr gname : String) (count : Nat) : String :=
  "✅ [" ++ dateStr ++ "] 组 " ++ gname ++ " 的证书监控正常，共 " ++ toString count ++ " 个"

/-- Line 129: the aggregated problem message; the alert lines are joined with
newlines after a header that itself contains exactly one newline at its end. -/
def problemText (dateStr gname : String) (count : Nat) (alerts : List String) : String :=
  "🚨 [" ++ dateStr ++ "] 组 " ++ gname ++ " 的证书监控发现 " ++ toString count
    ++ " 个问题:\n" ++ String.intercalate "\n" alerts

/-- Lines 103-132, the body of the per-group loop: the list of `SendWxwork`
calls (message and severity) made for one group.  The source calls
`time.Now()` a second time when formatting the date inside the message; both
instants are modelled by the single `nowNs` captured for the group, which
only affects the formatted date string. -/
def processGroup (nowNs : Int) (fmtDate : Int → String)
    (probe : String → ProbeResult) (g : WatchGroup) : List (String × Level) :=
  let alerts := groupAlerts g nowNs fmtDate probe
  if alerts.length ≤ 0 then
    [(allClearText (fmtDate nowNs) g.name g.sites.length, Level.info)]
  else
    [(problemText (fmtDate nowNs) g.name alerts.length alerts, Level.warn)]

/-- The sweep over all configured groups (the outer loop of `main`): the
concatenated list of notification calls, in group order. -/
def sweep (nowNs : Int) (fmtDate : Int → String)
    (probe : String → ProbeResult) (groups : List WatchGroup) : List (String × Level) :=
  match groups with
  | [] => []
  | g :: rest => processGroup nowNs fmtDate probe g ++ sweep nowNs fmtDate probe rest

/-- Error taxonomy of `GetExpirationDate`: a connection-level failure
(line 143-145, the `tls.Dial` error) or the distinct
`fmt.Errorf("no certificates found")` at line 149. -/
inductive ProbeErr
  | connectionError (msg : String)
  | noCertificatesFound
deriving Repr, DecidableEq

/-- Lines 137-139: default port 443 is appended when the host has no colon. -/
def withPort (host : String) : String :=
  if host.contains ':' then host else host ++ ":443"

/-- `GetExpirationDate` (lines 135-152).  `dial` models the outcome of
`tls.Dial`: an error message, or the list of `NotAfter` instants of the peer
certificates presented by the server (in chain order). -/
def GetExpirationDate (dial : String → Except String (List Int))
    (host : String) : Except ProbeErr Int :=
  match dial (withPort host) with
  | .error e => .error (.connectionError e)
  | .ok certs =>
      match certs with
      | [] => .error .noCertificatesFound
      | c :: _ => .ok c

/-- The TLS dial settings used at lines 140-142: the `tls.Config` sets only
`InsecureSkipVerify: true`; `tls.Dial` is called with the zero-value
`net.Dialer`, whose `Timeout` is unset, so no application-level timeout
bounds the connection attempt (`timeoutNs = none`).  Contrast `SendWxwork`,
whose HTTP client sets a 10-second timeout at line 55. -/
structure TLSDialSettings where
  insecureSkipVerify : Bool
  timeoutNs : Option Nat
deriving Repr, DecidableEq

/-- The settings of the one `tls.Dial` call in `GetExpirationDate`. -/
def proberDialSettings : TLSDialSettings :=
  { insecureSkipVerify := true, timeoutNs := none }

/-- An HTTP request as assembled by `SendWxwork` (lines 49-53). -/
structure HttpRequest where
  url : String
  contentType : String
  body : String
deriving Repr, DecidableEq

/-- Lines 34-41, 44: the JSON payload template with the message spliced in. -/
def wxworkPayload (msg : String) : String :=
  "\n\x7b\n\t\"msgtype\": \"text\",\n\t\"text\": \x7b\n\t\t\"content\": \"" ++ msg
    ++ "\"\n\t\x7d\n\x7d\n"

/-- `SendWxwork` (lines 43-69).  Returns the list of HTTP requests issued
(zero or one) together with the returned error value.  `transport` models
`client.Do`: an error, or the response status code. -/
def SendWxwork (g : WatchGroup) (msg : String)
    (transport : HttpRequest → Except String Nat) :
    List HttpRequest × Except String Unit :=
  let payload := wxworkPayload msg
  if g.wxworkToken = "" then
    ([], .ok ())
  else
    let req : HttpRequest :=
      { url := "https://qyapi.weixin.qq.com/cgi-bin/webhook/send?key=" ++ g.wxworkToken
        contentType := "application/json"
        body := payload }
    match transport req with
    | .error e => ([req], .error e)
    | .ok status =>
        if status ≠ 200 then
          ([req], .error ("wxwork notification failed with status code: " ++ toString status))
        else
          ([req], .ok ())

/-! ## Helper lemmas -/

lemma tdiv_mul_cancel_right_of_nonneg (a b c : Int) (ha : 0 ≤ a) (hb : 0 ≤ b)
    (hc : 0 < c) : (a * c).tdiv (b * c) = a.tdiv b := by
  rw [Int.tdiv_eq_ediv (mul_nonneg ha hc.le) (mul_nonneg hb hc.le),
    Int.tdiv_eq_ediv ha hb, Int.mul_ediv_mul_of_pos_left a b hc]

lemma tdiv_mul_cancel_right (a b c : Int) (hb : 0 ≤ b) (hc : 0 < c) :
    (a * c).tdiv (b * c) = a.tdiv b := by
  rcases le_or_lt 0 a with ha | ha
  · exact tdiv_mul_cancel_right_of_nonneg a b c ha hb hc
  · have h := tdiv_mul_cancel_right_of_nonneg (-a) b c (by omega) hb hc
    rw [Int.neg_mul, Int.neg_tdiv, Int.neg_tdiv] at h
    omega

/-! ## Claims -/

/-- Claim C1: for every redline `R ≥ 0` and computed `daysLeft` value `D`, the
classification of a successfully probed site is a total, non-overlapping
partition: `Healthy` (no alert line) iff `D > R`, `ExpiringSoon` (the
expiring-soon alert line mentioning `D`) iff `0 ≤ D ≤ R`, and `Expired`
(the expired alert line) iff `D < 0`. -/
theorem C1_classification_partition (R D : Int) (hR : 0 ≤ R) :
    (classify R D = Classification.Healthy ↔ R < D) ∧
    (classify R D = Classification.ExpiringSoon D ↔ 0 ≤ D ∧ D ≤ R) ∧
    (classify R D = Classification.Expired D ↔ D < 0) ∧
    (∀ (nowNs e : Int) (fmtDate : Int → String) (probe : String → ProbeResult)
        (site : String),
      probe site = ProbeResult.success e → daysLeft e nowNs = D →
        (siteAlert R nowNs fmtDate probe site = none ↔ R < D) ∧
        (0 ≤ D ∧ D ≤ R →
          siteAlert R nowNs fmtDate probe site
            = some (expiringSoonLine site D (fmtDate e))) ∧
        (D < 0 →
          siteAlert R nowNs fmtDate probe site
            = some (expiredLine site (fmtDate e)))) := by
  refine ⟨?_, ?_, ?_, ?_⟩
  · unfold classify; split_ifs <;> simp <;> omega
  · unfold classify; split_ifs <;> simp <;> omega
  · unfold classify; split_ifs <;> simp <;> omega
  · intro nowNs e fmtDate probe site hps hD
    simp only [siteAlert, hps, hD]
    split_ifs with h1 h2
    · exact ⟨by simp; omega, fun _ => rfl, fun hneg => absurd hneg (by omega)⟩
    · exact ⟨by simp; omega, fun hpos => absurd hpos (by omega), fun _ => rfl⟩
    · exact ⟨by simp; omega, fun hpos => absurd hpos (by omega),
        fun hneg => absurd hneg (by omega)⟩

/-- Witness for C1 at `R = 7`, `D = 4`. -/
theorem C1_classification_partition_witness :
    (0 : Int) ≤ 7 ∧ classify 7 4 = Classification.ExpiringSoon 4 :=
  ⟨by decide, ((C1_classification_partition 7 4 (by decide)).2.1).mpr (by decide)⟩

/-- Claim C2: for a successful probe, `daysLeft` is the (whole) hours between
expiry and now divided by 24, truncating toward zero; an expiry exactly
`24 h × N + 1 h` in the future yields `daysLeft = N`, not `N + 1`. -/
theorem C2_daysLeft_truncates (now h N : Int) (hN : 0 ≤ N) :
    daysLeft (now + h * nsPerHour) now = Int.tdiv h 24 ∧
    daysLeft (now + (24 * N + 1) * nsPerHour) now = N := by
  have key : ∀ x : Int, daysLeft (now + x * nsPerHour) now = Int.tdiv x 24 := by
    intro x
    have e1 : now + x * nsPerHour - now = x * nsPerHour := by ring
    have e2 : (0 : Int) < nsPerHour := by norm_num [nsPerHour]
    simp only [daysLeft, nsPerDay, e1]
    exact tdiv_mul_cancel_right x 24 nsPerHour (by norm_num) e2
  refine ⟨key h, ?_⟩
  rw [key (24 * N + 1), Int.tdiv_eq_ediv (by omega) (by norm_num)]
  omega

/-- Witness for C2 at `now = 0`, `h = 49`, `N = 2`. -/
theorem C2_daysLeft_truncates_witness :
    daysLeft (0 + 49 * nsPerHour) 0 = Int.tdiv 49 24 ∧
    daysLeft (0 + (24 * 2 + 1) * nsPerHour) 0 = 2 :=
  C2_daysLeft_truncates 0 49 2 (by decide)

/-- Claim C4: exactly one notification delivery call is made per group per
sweep, whatever the number of alert lines. -/
theorem C4_exactly_one_delivery (nowNs : Int) (fmtDate : Int → String)
    (probe : String → ProbeResult) (g : WatchGroup) :
    (processGroup nowNs fmtDate probe g).length = 1 := by
  simp only [processGroup]
  split_ifs <;> rfl

/-- Claim C7: an expiry strictly between 24 hours ago and now truncates to
`daysLeft = 0`, so for every redline `R ≥ 0` the site is classified
`ExpiringSoon 0` and gets the expiring-soon alert line, not the expired one. -/
theorem C7_just_expired_counts_as_expiring_soon (E now R : Int)
    (h1 : -nsPerDay < E - now) (h2 : E - now < 0) (hR : 0 ≤ R) :
    daysLeft E now = 0 ∧
    classify R (daysLeft E now) = Classification.ExpiringSoon 0 ∧
    (∀ (fmtDate : Int → String) (probe : String → ProbeResult) (site : String),
      probe site = ProbeResult.success E →
        siteAlert R now fmtDate probe site
          = some (expiringSoonLine site 0 (fmtDate E))) := by
  have hc : nsPerDay = 86400000000000 := by norm_num [nsPerDay, nsPerHour]
  have hd : daysLeft E now = 0 := by
    have h3 : (-(E - now)).tdiv nsPerDay = 0 :=
      Int.tdiv_eq_zero_of_lt (by omega) (by omega)
    have h4 := Int.neg_tdiv (E - now) nsPerDay
    rw [h4] at h3
    simp only [daysLeft]
    omega
  refine ⟨hd, ?_, ?_⟩
  · rw [hd]
    unfold classify
    rw [if_pos ⟨hR, le_refl 0⟩]
  · intro fmtDate probe site hps
    simp only [siteAlert, hps, hd]
    rw [if_pos ⟨hR, le_refl 0⟩]

/-- Witness for C7: certificate expired one hour ago, redline 7. -/
theorem C7_just_expired_witness :
    daysLeft (-3600000000000) 0 = 0 ∧
    classify 7 (daysLeft (-3600000000000) 0) = Classification.ExpiringSoon 0 :=
  ⟨(C7_just_expired_counts_as_expiring_soon (-3600000000000) 0 7
      (by norm_num [nsPerDay, nsPerHour]) (by norm_num) (by norm_num)).1,
   (C7_just_expired_counts_as_expiring_soon (-3600000000000) 0 7
      (by norm_num [nsPerDay, nsPerHour]) (by norm_num) (by norm_num)).2.1⟩

lemma length_filterMap_eq_length_filter {α β : Type} (f : α → Option β)
    (l : List α) :
    (l.filterMap f).length = (l.filter (fun a => (f a).isSome)).length := by
  induction l with
  | nil => rfl
  | cons a l ih =>
    rw [List.filterMap_cons, List.filter_cons]
    cases h : f a
    · simp [h, ih]
    · simp [h, ih]

lemma siteAlert_isSome_eq (redline nowNs : Int) (fmtDate : Int → String)
    (probe : String → ProbeResult) (site : String) :
    (siteAlert redline nowNs fmtDate probe site).isSome =
      decide (classifySite redline nowNs probe site ≠ Classification.Healthy) := by
  cases hp : probe site with
  | failure e => simp [siteAlert, classifySite, hp]
  | success e =>
    simp only [siteAlert, classifySite, classify, hp]
    split_ifs <;> simp

/-- Claim C3: a group with at least one non-healthy site gets a `Warning`
report whose alert-line count equals the number of non-healthy sites, the
lines appearing in original site-list order. -/
theorem C3_warning_report (g : WatchGroup) (nowNs : Int) (fmtDate : Int → String)
    (probe : String → ProbeResult)
    (h : ∃ site ∈ g.sites,
      classifySite g.dayBeforeExpiration nowNs probe site ≠ Classification.Healthy) :
    processGroup nowNs fmtDate probe g =
      [(problemText (fmtDate nowNs) g.name (groupAlerts g nowNs fmtDate probe).length
          (groupAlerts g nowNs fmtDate probe), Level.warn)] ∧
    groupAlerts g nowNs fmtDate probe
      = g.sites.filterMap (siteAlert g.dayBeforeExpiration nowNs fmtDate probe) ∧
    (groupAlerts g nowNs fmtDate probe).length
      = (g.sites.filter (fun s =>
          decide (classifySite g.dayBeforeExpiration nowNs probe s
            ≠ Classification.Healthy))).length := by
  have hcount : (groupAlerts g nowNs fmtDate probe).length
      = (g.sites.filter (fun s =>
          decide (classifySite g.dayBeforeExpiration nowNs probe s
            ≠ Classification.Healthy))).length := by
    rw [groupAlerts, length_filterMap_eq_length_filter]
    congr 1
    apply List.filter_congr
    intro s _
    exact siteAlert_isSome_eq g.dayBeforeExpiration nowNs fmtDate probe s
  have hpos : 0 < (groupAlerts g nowNs fmtDate probe).length := by
    rw [hcount]
    obtain ⟨s, hs, hne⟩ := h
    exact List.length_pos_of_mem (List.mem_filter.mpr ⟨hs, decide_eq_true hne⟩)
  refine ⟨?_, rfl, hcount⟩
  simp only [processGroup]
  rw [if_neg (by omega)]

/-- Witness for C3: one site whose probe fails. -/
theorem C3_warning_report_witness :
    processGroup 0 (fun _ => "d") (fun _ => ProbeResult.failure "refused")
        ⟨"g", "", 0, 7, ["a"]⟩ =
      [(problemText "d" "g" 1 [checkFailedLine "a"], Level.warn)] := by
  have h := (C3_warning_report ⟨"g", "", 0, 7, ["a"]⟩ 0 (fun _ => "d")
    (fun _ => ProbeResult.failure "refused") ⟨"a", by simp, by decide⟩).1
  rw [h]
  rfl

/-- Claim C5: a group whose sites are all healthy — including the empty site
list — gets a single `Info` all-clear report stating the site count. -/
theorem C5_all_clear (g : WatchGroup) (nowNs : Int) (fmtDate : Int → String)
    (probe : String → ProbeResult)
    (h : ∀ site ∈ g.sites,
      classifySite g.dayBeforeExpiration nowNs probe site = Classification.Healthy) :
    processGroup nowNs fmtDate probe g =
      [(allClearText (fmtDate nowNs) g.name g.sites.length, Level.info)] := by
  have halerts : groupAlerts g nowNs fmtDate probe = [] := by
    rw [groupAlerts, List.filterMap_eq_nil_iff]
    intro s hs
    have hb := siteAlert_isSome_eq g.dayBeforeExpiration nowNs fmtDate probe s
    rw [h s hs] at hb
    simp at hb
    cases hx : siteAlert g.dayBeforeExpiration nowNs fmtDate probe s with
    | none => rfl
    | some v => rw [hx] at hb; simp at hb
  simp [processGroup, halerts]

/-- Witness for C5: the empty site list reports all clear with count 0. -/
theorem C5_all_clear_witness :
    processGroup 0 (fun _ => "d") (fun _ => ProbeResult.failure "x")
        ⟨"g", "", 0, 7, []⟩ =
      [(allClearText "d" "g" 0, Level.info)] :=
  C5_all_clear ⟨"g", "", 0, 7, []⟩ 0 (fun _ => "d")
    (fun _ => ProbeResult.failure "x") (by simp)

/-- Claim C6: a probe failure yields the check-failed (`Unreachable`) alert
line for that site, and the evaluation of the sites after it and of the
remaining groups proceeds unchanged. -/
theorem C6_probe_failure_isolated (redline nowNs : Int) (fmtDate : Int → String)
    (probe : String → ProbeResult) (pre post : List String) (site e : String)
    (hf : probe site = ProbeResult.failure e) :
    siteAlert redline nowNs fmtDate probe site = some (checkFailedLine site) ∧
    classifySite redline nowNs probe site = Classification.Unreachable ∧
    (pre ++ site :: post).filterMap (siteAlert redline nowNs fmtDate probe)
      = pre.filterMap (siteAlert redline nowNs fmtDate probe)
        ++ checkFailedLine site
          :: post.filterMap (siteAlert redline nowNs fmtDate probe) ∧
    (∀ (g : WatchGroup) (rest : List WatchGroup),
      sweep nowNs fmtDate probe (g :: rest)
        = processGroup nowNs fmtDate probe g ++ sweep nowNs fmtDate probe rest) := by
  have ha : siteAlert redline nowNs fmtDate probe site = some (checkFailedLine site) := by
    unfold siteAlert
    rw [hf]
  refine ⟨ha, ?_, ?_, fun g rest => rfl⟩
  · unfold classifySite
    rw [hf]
  · rw [List.filterMap_append, List.filterMap_cons, ha]

/-- Witness for C6: failing middle site between two healthy neighbours. -/
theorem C6_probe_failure_isolated_witness :
    (["a"] ++ "b" :: ["c"]).filterMap
        (siteAlert 7 0 (fun _ => "d") (fun _ => ProbeResult.failure "x"))
      = ["a"].filterMap (siteAlert 7 0 (fun _ => "d") (fun _ => ProbeResult.failure "x"))
        ++ checkFailedLine "b"
          :: ["c"].filterMap (siteAlert 7 0 (fun _ => "d") (fun _ => ProbeResult.failure "x")) :=
  (C6_probe_failure_isolated 7 0 (fun _ => "d") (fun _ => ProbeResult.failure "x")
    ["a"] ["c"] "b" "x" rfl).2.2.1

/-- Claim C8 (refuted by the code): the `tls.Dial` call in `GetExpirationDate`
configures no timeout at all — `proberDialSettings.timeoutNs = none` — so the
connection attempt is not bounded by any application-level timeout, contrary
to the spec's requirement of a bound (recommended ceiling 10 seconds). -/
theorem C8_prober_dial_has_no_timeout :
    proberDialSettings.timeoutNs = none ∧
    proberDialSettings.insecureSkipVerify = true := ⟨rfl, rfl⟩

/-- Claim C9: on a successful dial the probe returns the `NotAfter` of the
first presented certificate; an empty chain yields the distinct
no-certificates-found error, which differs from every connection-level
failure. -/
theorem C9_probe_leaf_or_no_cert (dial : String → Except String (List Int))
    (host : String) (certs : List Int)
    (h : dial (withPort host) = Except.ok certs) :
    (∀ c cs, certs = c :: cs → GetExpirationDate dial host = Except.ok c) ∧
    (certs = [] →
      GetExpirationDate dial host = Except.error ProbeErr.noCertificatesFound) ∧
    (∀ msg, ProbeErr.noCertificatesFound ≠ ProbeErr.connectionError msg) := by
  refine ⟨?_, ?_, fun msg => by simp⟩
  · intro c cs hcs
    unfold GetExpirationDate
    rw [h, hcs]
  · intro hnil
    unfold GetExpirationDate
    rw [h, hnil]

/-- Witness for C9: a two-certificate chain and an empty chain. -/
theorem C9_probe_leaf_or_no_cert_witness :
    GetExpirationDate (fun _ => Except.ok [100, 200]) "example.com"
      = Except.ok 100 ∧
    GetExpirationDate (fun _ => Except.ok ([] : List Int)) "example.com"
      = Except.error ProbeErr.noCertificatesFound :=
  ⟨(C9_probe_leaf_or_no_cert (fun _ => Except.ok [100, 200]) "example.com"
      [100, 200] rfl).1 100 [200] rfl,
   (C9_probe_leaf_or_no_cert (fun _ => Except.ok ([] : List Int)) "example.com"
      [] rfl).2.1 rfl⟩

/-- Claim C10: with an empty wxwork token, `SendWxwork` makes no HTTP request
and returns success. -/
theorem C10_empty_token_noop (g : WatchGroup) (msg : String)
    (transport : HttpRequest → Except String Nat) (h : g.wxworkToken = "") :
    SendWxwork g msg transport = ([], Except.ok ()) := by
  simp only [SendWxwork]
  rw [if_pos h]

/-- Witness for C10. -/
theorem C10_empty_token_noop_witness :
    SendWxwork ⟨"g", "", 0, 7, []⟩ "m" (fun _ => Except.ok 200)
      = ([], Except.ok ()) :=
  C10_empty_token_noop ⟨"g", "", 0, 7, []⟩ "m" (fun _ => Except.ok 200) rfl

end Crtwtch
